import Mathlib

/-!
# Verification of the timelapse-manager job state calculator

Shallow embedding of `backend/services/job_state.py` and the
failure-counting logic of `backend/services/capture_scheduler.py` /
`backend/services/image_capture.py`.

Modelling conventions:
* Instants (`datetime`) are integers: seconds since 2025-01-01T00:00:00Z
  (any midnight-aligned epoch works; the timezone is fixed, matching the
  `TZ=UTC` setting all spec scenarios use, so `parse_iso`/`to_iso` become
  the identity on instants).
* Python `time` objects are `PyTime` records (hour, minute, second) with
  Python's lexicographic comparison.
* `job` dicts are `Job` records carrying parsed fields; the `HH:MM`
  window strings are carried as (hour, minute) pairs, `parse_time_string`
  turns them into `PyTime` values exactly as the source does.
* The human-readable `reason` strings built with f-strings and `to_iso`
  are represented by the inductive `Reason`, one constructor per format
  string, carrying the interpolated instant; `to_iso` is injective on
  instants so this is a faithful (isomorphic) representation.
* Python `while`/bounded `for` loops are fuel recursions with the
  source's literal bounds (`range(30)`, `range(1000)`); the open-ended
  `while` in `calculate_next_capture_on_grid` gets fuel sufficient for
  any positive interval, and we prove it exits immediately.
-/

/-- Python `datetime.time`: hour, minute, second. -/
structure PyTime where
  hour : Nat
  minute : Nat
  second : Nat
  deriving DecidableEq, Repr

/-- Python `time` comparison: lexicographic on (hour, minute, second). -/
def PyTime.ltb (a b : PyTime) : Bool :=
  a.hour < b.hour ||
    (a.hour == b.hour &&
      (a.minute < b.minute || (a.minute == b.minute && a.second < b.second)))

/-- Python `time` `<=`: lexicographic. -/
def PyTime.leb (a b : PyTime) : Bool :=
  PyTime.ltb a b || a == b

/-- Python `datetime.time()` of an instant: wall-clock time of day (UTC timeline). -/
def timeOf (t : Int) : PyTime :=
  let sod := (t.emod 86400).toNat
  ⟨sod / 3600, sod % 3600 / 60, sod % 60⟩

/-- Model of `datetime.combine(t.date(), tm)`: midnight of `t`'s day plus `tm`. -/
def combineDate (t : Int) (tm : PyTime) : Int :=
  (t - t.emod 86400) + (tm.hour * 3600 + tm.minute * 60 + tm.second)

/-- Job record: the fields of the `job` dict that `job_state.py` reads.
`start_datetime`/`end_datetime` are carried parsed (`parse_iso` is the
identity on our instant timeline), window times as (hour, minute). -/
structure Job where
  status : Option String
  start_datetime : Int
  end_datetime : Option Int
  interval_seconds : Int
  time_window_enabled : Bool
  time_window_start : Nat × Nat
  time_window_end : Nat × Nat
  deriving DecidableEq, Repr

/-- Model of `parse_time_string`: `HH:MM` (carried as a pair) to a `time` object. -/
def parse_time_string (p : Nat × Nat) : PyTime :=
  ⟨p.1, p.2, 0⟩

/-- Model of `is_time_in_window` (job_state.py:48): minute-granular window
membership, inclusive on both ends, windows may cross midnight. -/
def is_time_in_window (check_time start_time end_time : PyTime) : Bool :=
  let current_hm : PyTime := ⟨check_time.hour, check_time.minute, 0⟩
  let start_hm : PyTime := ⟨start_time.hour, start_time.minute, 0⟩
  let end_hm : PyTime := ⟨end_time.hour, end_time.minute, 0⟩
  if start_hm == end_hm then
    current_hm == start_hm
  else if start_hm.ltb end_hm then
    start_hm.leb current_hm && current_hm.leb end_hm
  else
    start_hm.leb current_hm || current_hm.leb end_hm

/-- The `while next_capture <= reference_time` loop of
`calculate_next_capture_on_grid`, with fuel (each iteration adds one
interval; for a positive interval the loop in fact never runs). -/
def gridLoop (reference_time interval : Int) : Nat → Int → Int
  | 0, next_capture => next_capture
  | fuel + 1, next_capture =>
    if next_capture ≤ reference_time then
      gridLoop reference_time interval fuel (next_capture + interval)
    else next_capture

/-- Model of `calculate_next_capture_on_grid` (job_state.py:16): next slot on the
grid `start + N·interval`; returns the start if before it, `none` if the
slot would pass `end_datetime`. `int(elapsed / interval)` truncates
toward zero; `elapsed ≥ 0` here, so it is floor division (`Int.ediv`). -/
def calculate_next_capture_on_grid (job : Job) (reference_time : Int) : Option Int :=
  let start_dt := job.start_datetime
  let interval := job.interval_seconds
  if reference_time < start_dt then
    some start_dt
  else
    let elapsed := reference_time - start_dt
    let intervals_passed := elapsed / interval
    let next_capture := start_dt + (intervals_passed + 1) * interval
    let next_capture :=
      gridLoop reference_time interval
        ((reference_time - next_capture).toNat + 1) next_capture
    match job.end_datetime with
    | some end_dt => if next_capture > end_dt then none else some next_capture
    | none => some next_capture

/-- Model of `calculate_next_window_start` (job_state.py:74). -/
def calculate_next_window_start (reference_time : Int) (start_time end_time : PyTime) : Int :=
  let current_time := timeOf reference_time
  let today_start := combineDate reference_time start_time
  if is_time_in_window current_time start_time end_time then
    today_start + 86400
  else if start_time.ltb end_time then
    if current_time.ltb start_time then today_start else today_start + 86400
  else
    if start_time.leb current_time then today_start else today_start - 86400

/-- The inner `for _ in range(1000)` of `find_next_capture_in_window`:
`some r` means the outer function returns `r` (`r = none`: no more
captures; `r = some c`: found `c`); `none` means fall to the next day
(the `break`, or the 1000 iterations running out). -/
def searchDay (job : Job) (start_time end_time : PyTime) (window_end_time : Int) :
    Nat → Int → Option (Option Int)
  | 0, _ => none
  | fuel + 1, search_time =>
    match calculate_next_capture_on_grid job search_time with
    | none => some none
    | some candidate =>
      if candidate > window_end_time then none
      else if is_time_in_window (timeOf candidate) start_time end_time then
        some (some candidate)
      else
        searchDay job start_time end_time window_end_time fuel candidate

/-- The outer `for day_offset in range(max_days)` of
`find_next_capture_in_window`, recursing on the remaining days. -/
def findDays (job : Job) (window_start : Int) (start_time end_time : PyTime) :
    Nat → Int → Option Int
  | 0, _ => none
  | fuel + 1, day_offset =>
    let current_window_start := window_start + day_offset * 86400
    let past_end :=
      match job.end_datetime with
      | some end_dt => decide (current_window_start > end_dt)
      | none => false
    if past_end then none
    else
      let window_end_time := combineDate current_window_start end_time
      let window_end_time :=
        if end_time.ltb start_time then window_end_time + 86400 else window_end_time
      match searchDay job start_time end_time window_end_time 1000
          (current_window_start - 1) with
      | some r => r
      | none => findDays job window_start start_time end_time fuel (day_offset + 1)

/-- Model of `find_next_capture_in_window` (job_state.py:102): first grid slot
falling inside any of the next `max_days` daily windows. -/
def find_next_capture_in_window (job : Job) (window_start : Int)
    (start_time end_time : PyTime) (max_days : Nat := 30) : Option Int :=
  findDays job window_start start_time end_time max_days 0

/-- The calculator's status values. -/
inductive JobStatus where
  | active
  | sleeping
  | completed
  | disabled
  deriving DecidableEq, Repr

/-- The `reason` strings of `calculate_job_state`, one constructor per
format string, carrying the `to_iso`-interpolated instant. -/
inductive Reason where
  | manuallyDisabled
  | jobStartsAt (t : Int)
  | pendingCaptureAt (t : Int)
  | noMoreCaptures
  | activeNext (t : Int)
  | endsBeforeWindow
  | outsideWindow (t : Int)
  deriving DecidableEq, Repr

/-- Model of `calculate_job_state` (job_state.py:160): the job state calculator.
The pending-capture block is written as an `Option`-valued intermediate
(`some r` = the block `return`s `r`, `none` = fall through to
recalculation), mirroring the source's control flow. -/
def calculate_job_state (job : Job) (reference_time : Int)
    (pending_capture_time : Option Int := none) :
    JobStatus × Option Int × Reason :=
  if job.status == some "disabled" then
    (.disabled, none, .manuallyDisabled)
  else
    let start_dt := job.start_datetime
    if reference_time < start_dt then
      (.sleeping, some start_dt, .jobStartsAt start_dt)
    else
      let pendingReturn : Option (JobStatus × Option Int × Reason) :=
        match pending_capture_time with
        | none => none
        | some pending =>
          let grace_period := job.interval_seconds * 2
          if pending > reference_time - grace_period then
            if job.time_window_enabled then
              let start_time := parse_time_string job.time_window_start
              let end_time := parse_time_string job.time_window_end
              let current_in_window :=
                is_time_in_window (timeOf reference_time) start_time end_time
              let pending_in_window :=
                is_time_in_window (timeOf pending) start_time end_time
              if current_in_window && pending_in_window then
                some (.active, some pending, .pendingCaptureAt pending)
              else none
            else
              some (.active, some pending, .pendingCaptureAt pending)
          else none
      match pendingReturn with
      | some r => r
      | none =>
        match calculate_next_capture_on_grid job reference_time with
        | none => (.completed, none, .noMoreCaptures)
        | some next_capture =>
          if job.time_window_enabled then
            let start_time := parse_time_string job.time_window_start
            let end_time := parse_time_string job.time_window_end
            let current_in_window :=
              is_time_in_window (timeOf reference_time) start_time end_time
            let next_capture_in_window :=
              is_time_in_window (timeOf next_capture) start_time end_time
            if current_in_window && next_capture_in_window then
              (.active, some next_capture, .activeNext next_capture)
            else
              let next_window_start :=
                calculate_next_window_start reference_time start_time end_time
              match find_next_capture_in_window job next_window_start
                  start_time end_time with
              | none => (.completed, none, .endsBeforeWindow)
              | some window_capture =>
                (.sleeping, some window_capture, .outsideWindow window_capture)
          else
            (.active, some next_capture, .activeNext next_capture)

/-- Model of `should_execute_capture` (job_state.py:259): dispatch-time validation
of a scheduled capture. Note the `current_time` parameter, kept to match
the source signature. -/
def should_execute_capture (job : Job) (scheduled_time : Int)
    (current_time : Int) : Bool × String :=
  let start_dt := job.start_datetime
  if scheduled_time < start_dt then
    (false, "Scheduled before job start")
  else
    let afterEnd :=
      match job.end_datetime with
      | some end_dt => decide (scheduled_time > end_dt)
      | none => false
    if afterEnd then
      (false, "Scheduled after job end")
    else if job.time_window_enabled then
      let start_time := parse_time_string job.time_window_start
      let end_time := parse_time_string job.time_window_end
      if !is_time_in_window (timeOf scheduled_time) start_time end_time then
        (false, "Scheduled time was outside time window")
      else
        (true, "Valid capture")
    else
      (true, "Valid capture")

/-! ## Concrete jobs and the capture-failure model -/

/-! ## Concrete jobs from the spec scenarios (epoch 2025-01-01T00:00:00Z) -/

/-- S1/S4 job: start 2025-01-01T12:00:00Z (= 43200), no end, 60 s
interval, no window. -/
def s1_job : Job := ⟨some "active", 43200, none, 60, false, (0, 0), (0, 0)⟩

/-- S3 job: window 22:00–02:00 crossing midnight,
start 2025-01-01T21:30:00Z (= 77400), 600 s interval. -/
def s3_job : Job := ⟨some "active", 77400, none, 600, true, (22, 0), (2, 0)⟩

/-- S2 job: window 08:00–20:00, start 2025-01-01T07:59:30Z (= 28770),
60 s interval. -/
def s2_job : Job := ⟨some "active", 28770, none, 60, true, (8, 0), (20, 0)⟩

/-- Counterexample job for C6: window 14:00–16:00, start
2025-01-01T12:00:00Z (= 43200) outside the window. -/
def c6_job : Job := ⟨some "active", 43200, none, 60, true, (14, 0), (16, 0)⟩

/-- Counterexample job for C7: status field `completed`, start 0,
end 100, 60 s interval, no window. -/
def c7_job : Job := ⟨some "completed", 0, some 100, 60, false, (0, 0), (0, 0)⟩

/-- Outcome of one `capture_image` call: `(True, None)` or
`(False, error_message)`. -/
inductive CaptureResult where
  | success
  | failure (error_message : String)
  deriving DecidableEq, Repr

/-- The SQL statements of `image_capture.py` / `capture_scheduler.py`
that touch the claim's columns. `updateJobOnSuccess` is the single
statement `UPDATE jobs SET capture_count = capture_count + 1,
storage_size = storage_size + ?, updated_at = ?, warning_message = NULL`;
`clearWarningMessage` is `UPDATE jobs SET warning_message = NULL`. -/
inductive Stmt where
  | insertCapture
  | updateJobOnSuccess
  | setWarningMessage (msg : String)
  | clearWarningMessage
  deriving DecidableEq, Repr

/-- Does a statement write `warning_message = NULL`? -/
def Stmt.clearsWarning : Stmt → Bool
  | .updateJobOnSuccess => true
  | .clearWarningMessage => true
  | _ => false

/-- Does a statement set a non-null `warning_message`? -/
def Stmt.setsWarning : Stmt → Bool
  | .setWarningMessage _ => true
  | _ => false

/-- Does a statement increment `capture_count`? -/
def Stmt.incrementsCaptureCount : Stmt → Bool
  | .updateJobOnSuccess => true
  | _ => false

/-- Database transactions performed by `capture_image`
(image_capture.py:68): on success one `with get_db()` transaction
inserts the capture row and runs the jobs update that increments
`capture_count`, adds the file size, and nulls `warning_message`; on
failure it performs none. -/
def capture_image_txns : CaptureResult → List (List Stmt)
  | .success => [[.insertCapture, .updateJobOnSuccess]]
  | .failure _ => []

/-- The warning text written by `CaptureScheduler._capture_and_update`:
`f"{error_message} (after {consecutive_failures} consecutive failures)"`. -/
def renderWarning (error_message : String) (n : Nat) : String :=
  error_message ++ " (after " ++ toString n ++ " consecutive failures)"

/-- Warning bookkeeping of `CaptureScheduler._capture_and_update`
(capture_scheduler.py:322): given the job's consecutive-failure count
before the attempt and the capture outcome, returns the new count and
the database transactions performed (`capture_image`'s, then the
scheduler's warning write: set the warning once the count is 3 or more,
explicitly null it below the threshold, nothing extra on success). -/
def captureAndUpdate (failure_count : Nat) (res : CaptureResult) :
    Nat × List (List Stmt) :=
  match res with
  | .success => (0, capture_image_txns .success)
  | .failure e =>
    let consecutive_failures := failure_count + 1
    if consecutive_failures ≥ 3 then
      (consecutive_failures,
        [[.setWarningMessage (renderWarning e consecutive_failures)]])
    else
      (consecutive_failures, [[.clearWarningMessage]])

/-- Fold of `captureAndUpdate` over a run of capture outcomes for one
job, starting from a failure count, collecting all transactions. -/
def runCaptures (failure_count : Nat) : List CaptureResult → Nat × List (List Stmt)
  | [] => (failure_count, [])
  | r :: rs =>
    let step := captureAndUpdate failure_count r
    let rest := runCaptures step.1 rs
    (rest.1, step.2 ++ rest.2)

/-! ## Helper lemmas: the grid calculation -/

/-- The spec's grid formula: `next = start + (N+1)·interval` with
`N = ⌊(ref − start) / interval⌋`. -/
def nextGridSlot (job : Job) (reference_time : Int) : Int :=
  job.start_datetime +
    ((reference_time - job.start_datetime) / job.interval_seconds + 1) *
      job.interval_seconds

theorem gridLoop_eq_self (reference_time interval next_capture : Int)
    (h : reference_time < next_capture) :
    ∀ fuel, gridLoop reference_time interval fuel next_capture = next_capture := by
  intro fuel
  cases fuel with
  | zero => rfl
  | succ n => simp [gridLoop, not_le.mpr h]

theorem nextGridSlot_gt (job : Job) (t : Int)
    (hi : 0 < job.interval_seconds) (ht : job.start_datetime ≤ t) :
    t < nextGridSlot job t := by
  unfold nextGridSlot
  set s := job.start_datetime
  set i := job.interval_seconds
  have h1 : i * ((t - s) / i) + (t - s) % i = t - s := Int.ediv_add_emod _ _
  have h2 : (t - s) % i < i := Int.emod_lt_of_pos _ hi
  have h3 : ((t - s) / i + 1) * i = i * ((t - s) / i) + i := by ring
  linarith

theorem nextGridSlot_min (job : Job) (t : Int)
    (hi : 0 < job.interval_seconds) (m : ℕ)
    (hm : t < job.start_datetime + m * job.interval_seconds) :
    nextGridSlot job t ≤ job.start_datetime + m * job.interval_seconds := by
  unfold nextGridSlot
  set s := job.start_datetime
  set i := job.interval_seconds
  have h1 : i * ((t - s) / i) + (t - s) % i = t - s := Int.ediv_add_emod _ _
  have h2 : 0 ≤ (t - s) % i := Int.emod_nonneg _ (ne_of_gt hi)
  have h3 : (t - s) / i < (m : ℤ) := by
    by_contra h
    push_neg at h
    have h4 : (m : ℤ) * i ≤ (t - s) / i * i :=
      mul_le_mul_of_nonneg_right h (le_of_lt hi)
    nlinarith
  have h5 : (t - s) / i + 1 ≤ (m : ℤ) := h3
  have h6 : ((t - s) / i + 1) * i ≤ (m : ℤ) * i :=
    mul_le_mul_of_nonneg_right h5 (le_of_lt hi)
  linarith

/-- For a started job with positive interval, the grid function returns
the spec formula's slot, cut off at `end_datetime`. -/
theorem calculate_next_capture_on_grid_eq (job : Job) (t : Int)
    (hi : 0 < job.interval_seconds) (ht : job.start_datetime ≤ t) :
    calculate_next_capture_on_grid job t =
      match job.end_datetime with
      | some end_dt =>
        if nextGridSlot job t > end_dt then none else some (nextGridSlot job t)
      | none => some (nextGridSlot job t) := by
  unfold calculate_next_capture_on_grid
  rw [if_neg (not_lt.mpr ht)]
  show (match job.end_datetime with
    | some end_dt =>
      if gridLoop t job.interval_seconds _ (nextGridSlot job t) > end_dt then none
      else some (gridLoop t job.interval_seconds _ (nextGridSlot job t))
    | none => some (gridLoop t job.interval_seconds _ (nextGridSlot job t))) = _
  rw [gridLoop_eq_self t job.interval_seconds _ (nextGridSlot_gt job t hi ht)]


/-- **C1.** For a window-disabled job with null pending and reference
time at or after start, the calculator returns `(active, next)` with
`next = start + (N+1)·interval` the smallest grid slot strictly greater
than the reference time, or `(completed, null)` when `end_datetime` is
set and that slot exceeds it; in particular S1: start 12:00:00Z,
interval 60, now 12:00:30Z gives `(active, 12:01:00Z)`. -/
theorem claim_C1_no_window_grid (job : Job) (t : Int)
    (hs : job.status ≠ some "disabled") (hw : job.time_window_enabled = false)
    (hi : 0 < job.interval_seconds) (ht : job.start_datetime ≤ t) :
    (t < nextGridSlot job t ∧
      ∀ m : ℕ, t < job.start_datetime + m * job.interval_seconds →
        nextGridSlot job t ≤ job.start_datetime + m * job.interval_seconds) ∧
    ((∀ end_dt, job.end_datetime = some end_dt → nextGridSlot job t ≤ end_dt) →
      calculate_job_state job t none =
        (.active, some (nextGridSlot job t), .activeNext (nextGridSlot job t))) ∧
    (∀ end_dt, job.end_datetime = some end_dt → end_dt < nextGridSlot job t →
      calculate_job_state job t none = (.completed, none, .noMoreCaptures)) ∧
    calculate_job_state s1_job 43230 none =
      (.active, some 43260, .activeNext 43260) := by
  have hsb : (job.status == some "disabled") = false := by
    simpa using hs
  refine ⟨⟨nextGridSlot_gt job t hi ht, nextGridSlot_min job t hi⟩, ?_, ?_, by decide⟩
  · intro hend
    simp only [calculate_job_state, hsb, Bool.false_eq_true, if_false,
      if_neg (not_lt.mpr ht), calculate_next_capture_on_grid_eq job t hi ht]
    cases he : job.end_datetime with
    | none => simp [hw]
    | some end_dt =>
      simp [hw, not_lt.mpr (hend end_dt he)]
  · intro end_dt he hlt
    simp only [calculate_job_state, hsb, Bool.false_eq_true, if_false,
      if_neg (not_lt.mpr ht), calculate_next_capture_on_grid_eq job t hi ht]
    rw [he]
    simp [hlt]

/-- Witness for C1 at scenario S1. -/
theorem claim_C1_no_window_grid_witness :
    s1_job.status ≠ some "disabled" ∧ s1_job.time_window_enabled = false ∧
    0 < s1_job.interval_seconds ∧ s1_job.start_datetime ≤ 43230 ∧
    calculate_job_state s1_job 43230 none =
      (.active, some (nextGridSlot s1_job 43230),
        .activeNext (nextGridSlot s1_job 43230)) :=
  ⟨by decide, by decide, by decide, by decide,
    (claim_C1_no_window_grid s1_job 43230 (by decide) (by decide) (by decide)
        (by decide)).2.1 (by simp [s1_job])⟩

/-- **C2.** A non-null pending capture inside the grace period
(`pending > ref − 2·interval`), with the window disabled or both
instants inside the window, is returned unchanged as
`(active, pending, "pending")`; once `pending ≤ ref − 2·interval` the
calculator recomputes exactly as with a null pending — in particular
S4: pending 12:01:00Z, interval 60, now 12:03:30Z gives fresh slot
12:04:00Z. -/
theorem claim_C2_pending_preservation :
    (∀ (job : Job) (t p : Int),
      job.status ≠ some "disabled" → job.start_datetime ≤ t →
      t - job.interval_seconds * 2 < p →
      (job.time_window_enabled = false ∨
        (is_time_in_window (timeOf t) (parse_time_string job.time_window_start)
            (parse_time_string job.time_window_end) = true ∧
          is_time_in_window (timeOf p) (parse_time_string job.time_window_start)
            (parse_time_string job.time_window_end) = true)) →
      calculate_job_state job t (some p) =
        (.active, some p, .pendingCaptureAt p)) ∧
    (∀ (job : Job) (t p : Int), p ≤ t - job.interval_seconds * 2 →
      calculate_job_state job t (some p) = calculate_job_state job t none) ∧
    calculate_job_state s1_job 43410 (some 43260) =
      (.active, some 43440, .activeNext 43440) := by
  refine ⟨?_, ?_, by decide⟩
  · intro job t p hs ht hg hw
    have hsb : (job.status == some "disabled") = false := by simpa using hs
    simp only [calculate_job_state, hsb, Bool.false_eq_true, if_false,
      if_neg (not_lt.mpr ht), if_pos hg]
    rcases hw with hw | ⟨h1, h2⟩
    · simp [hw]
    · simp [h1, h2]
  · intro job t p hg
    simp only [calculate_job_state, if_neg (not_lt.mpr hg)]

/-- Witness for C2 at scenario S4's first tick (pending 12:01:00Z still
inside the grace period at 12:01:30Z). -/
theorem claim_C2_pending_preservation_witness :
    s1_job.status ≠ some "disabled" ∧ s1_job.start_datetime ≤ 43290 ∧
    (43290 : Int) - s1_job.interval_seconds * 2 < 43260 ∧
    calculate_job_state s1_job 43290 (some 43260) =
      (.active, some 43260, .pendingCaptureAt 43260) :=
  ⟨by decide, by decide, by decide,
    claim_C2_pending_preservation.1 s1_job 43290 43260 (by decide) (by decide)
      (by decide) (Or.inl rfl)⟩

/-! ## Claim C3: window membership -/

theorem pytime_ltb_iff (h m h' m' : Nat) (hm : m < 60) (hm' : m' < 60) :
    PyTime.ltb ⟨h, m, 0⟩ ⟨h', m', 0⟩ = true ↔ h * 60 + m < h' * 60 + m' := by
  simp only [PyTime.ltb, Bool.or_eq_true, Bool.and_eq_true, decide_eq_true_eq,
    beq_iff_eq]
  omega

theorem pytime_leb_iff (h m h' m' : Nat) (hm : m < 60) (hm' : m' < 60) :
    PyTime.leb ⟨h, m, 0⟩ ⟨h', m', 0⟩ = true ↔ h * 60 + m ≤ h' * 60 + m' := by
  simp only [PyTime.leb, PyTime.ltb, Bool.or_eq_true, Bool.and_eq_true,
    decide_eq_true_eq, beq_iff_eq, PyTime.mk.injEq, lt_self_iff_false,
    and_false, or_false, and_true]
  omega

theorem pytime_beq_iff (h m h' m' : Nat) :
    ((⟨h, m, 0⟩ : PyTime) == ⟨h', m', 0⟩) = true ↔ h = h' ∧ m = m' := by
  simp [beq_iff_eq, PyTime.mk.injEq]

/-- Claim C3: window membership is decided on hour:minute only (the
`second` field is irrelevant) and, writing times as minutes past
midnight, is the single-minute test when the bounds coincide, the
inclusive interval test when `W_start < W_end`, and the wrapped
disjunction when the window crosses midnight. -/
theorem claim_C3_window_membership :
    (∀ (t ws we : PyTime), t.minute < 60 → ws.minute < 60 → we.minute < 60 →
      (is_time_in_window t ws we = true ↔
        (if ws.hour * 60 + ws.minute = we.hour * 60 + we.minute then
          t.hour * 60 + t.minute = ws.hour * 60 + ws.minute
        else if ws.hour * 60 + ws.minute < we.hour * 60 + we.minute then
          ws.hour * 60 + ws.minute ≤ t.hour * 60 + t.minute ∧
            t.hour * 60 + t.minute ≤ we.hour * 60 + we.minute
        else
          ws.hour * 60 + ws.minute ≤ t.hour * 60 + t.minute ∨
            t.hour * 60 + t.minute ≤ we.hour * 60 + we.minute))) ∧
    (∀ (t ws we : PyTime) (s : Nat),
      is_time_in_window ⟨t.hour, t.minute, s⟩ ws we = is_time_in_window t ws we) := by
  constructor
  · intro t ws we h1 h2 h3
    simp only [is_time_in_window]
    split
    · rename_i hc1
      rw [pytime_beq_iff] at hc1
      simp only [pytime_beq_iff]
      split
      all_goals try split
      all_goals omega
    · rename_i hc1
      rw [pytime_beq_iff] at hc1
      split
      · rename_i hc2
        rw [pytime_ltb_iff _ _ _ _ h2 h3] at hc2
        simp only [Bool.and_eq_true, pytime_leb_iff _ _ _ _ h2 h1,
          pytime_leb_iff _ _ _ _ h1 h3]
        split
        all_goals try split
        all_goals omega
      · rename_i hc2
        rw [pytime_ltb_iff _ _ _ _ h2 h3] at hc2
        simp only [Bool.or_eq_true, pytime_leb_iff _ _ _ _ h2 h1,
          pytime_leb_iff _ _ _ _ h1 h3]
        split
        all_goals try split
        all_goals omega
  · intro t ws we s
    rfl

/-- Witness for C3: 10:02:30 lies in the single-minute window
10:02–10:02, whose bounds satisfy the minute-range side conditions. -/
theorem claim_C3_window_membership_witness :
    (10 : Nat) * 60 + 2 = 10 * 60 + 2 ∧ (2 : Nat) < 60 ∧
    (is_time_in_window ⟨10, 2, 30⟩ ⟨10, 2, 0⟩ ⟨10, 2, 0⟩ = true ↔
      (10 : Nat) * 60 + 2 = 10 * 60 + 2) :=
  ⟨rfl, by decide, by
    have h := claim_C3_window_membership.1 ⟨10, 2, 30⟩ ⟨10, 2, 0⟩ ⟨10, 2, 0⟩
      (by decide) (by decide) (by decide)
    simpa using h⟩

/-! ## Claims C4 and C5: the concrete window scenarios -/



/-- Claim C4 (code bug): at 2025-01-02T01:50:00Z (= 93000) the
calculator does return `(active, 2025-01-02T02:00:00Z = 93600)`; but at
2025-01-02T02:30:00Z (= 95400), where the claim and spec S3 require
`(sleeping, 2025-01-02T22:00:00Z = 165600)`, the code returns
`(sleeping, 2025-01-01T22:00:00Z = 79200)` — a slot in the past
(79200 < 95400), because `calculate_next_window_start` steps back a day
for a midnight-crossing window whenever the current time is before the
window's start time, even when the window has already closed. -/
theorem claim_C4_midnight_window_bug :
    calculate_job_state s3_job 93000 none =
      (.active, some 93600, .activeNext 93600) ∧
    calculate_job_state s3_job 95400 none =
      (.sleeping, some 79200, .outsideWindow 79200) ∧
    calculate_next_window_start 95400 (parse_time_string (22, 0))
      (parse_time_string (2, 0)) = 79200 ∧
    (79200 : Int) < 95400 ∧ (79200 : Int) ≠ 165600 := by
  decide

/-- S2 job at 07:59:45 (= 28785): the original claim's value 08:00:00
(= 28800) is not what the code returns — the grid is anchored at
start 07:59:30, so the first slot inside the window is 08:00:30
(= 28830). -/
theorem claim_C5_counterexample :
    (calculate_job_state s2_job 28785 none).1 = JobStatus.sleeping ∧
    (calculate_job_state s2_job 28785 none).2.1 = some 28830 ∧
    (calculate_job_state s2_job 28785 none).2.1 ≠ some 28800 := by
  decide

/-- Claim C5 (amended): with window 08:00–20:00, start 07:59:30Z,
interval 60, pending null, the calculator returns
`(sleeping, 08:00:30Z)` at 07:59:45Z — the first grid slot inside the
window, grid slots landing on :30 seconds — and `(active, 08:00:30Z)`
at 08:00:15Z. -/
theorem claim_C5_window_inside_day :
    calculate_job_state s2_job 28785 none =
      (.sleeping, some 28830, .outsideWindow 28830) ∧
    calculate_job_state s2_job 28815 none =
      (.active, some 28830, .activeNext 28830) := by
  decide

/-! ## Claim C6: window membership of the returned slot -/

theorem searchDay_in_window (job : Job) (ws we : PyTime) (wend : Int) :
    ∀ (fuel : Nat) (st c : Int),
      searchDay job ws we wend fuel st = some (some c) →
      is_time_in_window (timeOf c) ws we = true := by
  intro fuel
  induction fuel with
  | zero => intro st c h; exact absurd h (by simp [searchDay])
  | succ n ih =>
    intro st c h
    rw [searchDay] at h
    cases hg : calculate_next_capture_on_grid job st with
    | none => rw [hg] at h; simp at h
    | some candidate =>
      rw [hg] at h
      simp only [] at h
      by_cases h1 : candidate > wend
      · rw [if_pos h1] at h; exact absurd h (by simp)
      · rw [if_neg h1] at h
        by_cases h2 : is_time_in_window (timeOf candidate) ws we = true
        · rw [if_pos h2] at h
          obtain rfl : candidate = c := by simpa using h
          exact h2
        · rw [if_neg h2] at h
          exact ih candidate c h

theorem findDays_in_window (job : Job) (wstart : Int) (ws we : PyTime) :
    ∀ (fuel : Nat) (off c : Int),
      findDays job wstart ws we fuel off = some c →
      is_time_in_window (timeOf c) ws we = true := by
  intro fuel
  induction fuel with
  | zero => intro off c h; exact absurd h (by simp [findDays])
  | succ n ih =>
    intro off c h
    rw [findDays] at h
    split at h
    · exact absurd h (by simp)
    · split at h
      · simp only [] at h
        split at h
        · rename_i r hr
          subst h
          exact searchDay_in_window job ws we _ 1000 _ _ hr
        · exact ih (off + 1) c h
      · simp only [] at h
        split at h
        · rename_i r hr
          subst h
          exact searchDay_in_window job ws we _ 1000 _ _ hr
        · exact ih (off + 1) c h


/-- Claim C6 fails as stated: before `start_datetime` the calculator
returns `(sleeping, start_datetime)` without any window check, so for a
window-enabled job whose start 12:00:00Z lies outside its 14:00–16:00
window, the returned `next_scheduled_capture_at` is outside the
window. -/
theorem claim_C6_counterexample :
    c6_job.time_window_enabled = true ∧
    calculate_job_state c6_job 0 none =
      (.sleeping, some 43200, .jobStartsAt 43200) ∧
    is_time_in_window (timeOf 43200) (parse_time_string c6_job.time_window_start)
      (parse_time_string c6_job.time_window_end) = false := by
  decide


/-- When the pending capture is outside the grace period, or the window
is enabled and the pending guard fails, the calculator falls through to
the same recalculation it performs with a null pending. -/
theorem calc_pending_fallthrough (job : Job) (t p : Int)
    (h : ¬ (t - job.interval_seconds * 2 < p) ∨
      (job.time_window_enabled = true ∧
        (is_time_in_window (timeOf t) (parse_time_string job.time_window_start)
            (parse_time_string job.time_window_end) &&
          is_time_in_window (timeOf p) (parse_time_string job.time_window_start)
            (parse_time_string job.time_window_end)) = false)) :
    calculate_job_state job t (some p) = calculate_job_state job t none := by
  rcases h with h | ⟨hw, hb⟩
  · simp only [calculate_job_state, if_neg h]
  · simp [calculate_job_state, hw, hb, ite_self]

/-- Every non-null slot the calculator returns with a null pending, for
a window-enabled started job, lies inside the window. -/
theorem calc_none_next_in_window (job : Job) (t : Int) (st : JobStatus)
    (rs : Reason) (v : Int) (hw : job.time_window_enabled = true)
    (ht : job.start_datetime ≤ t)
    (heq : calculate_job_state job t none = (st, some v, rs)) :
    is_time_in_window (timeOf v) (parse_time_string job.time_window_start)
      (parse_time_string job.time_window_end) = true := by
  simp only [calculate_job_state, hw, if_true] at heq
  split at heq
  · simp only [Prod.mk.injEq] at heq
    exact absurd heq.2.1.symm (by simp)
  · split at heq
    · rename_i hlt
      exact absurd hlt (not_lt.mpr ht)
    · split at heq
      · simp only [Prod.mk.injEq] at heq
        exact absurd heq.2.1.symm (by simp)
      · rename_i next_capture hg
        split at heq
        · rename_i hboth
          simp only [Prod.mk.injEq] at heq
          obtain rfl : next_capture = v := by simpa using heq.2.1
          exact (Bool.and_eq_true _ _ |>.mp hboth).2
        · split at heq
          · simp only [Prod.mk.injEq] at heq
            exact absurd heq.2.1.symm (by simp)
          · rename_i wc hwc
            simp only [Prod.mk.injEq] at heq
            obtain rfl : wc = v := by simpa using heq.2.1
            exact findDays_in_window job _ _ _ 30 0 _ hwc

/-- Claim C6 (amended): for a window-enabled job, whenever the reference
time is at or after `start_datetime` and the calculator returns status
`active` or `sleeping` with a non-null `next_scheduled_capture_at`, that
timestamp's hour:minute lies inside the window; before `start_datetime`
the calculator returns `start_datetime` itself, unchecked. -/
theorem claim_C6_next_in_window (job : Job) (t : Int) (pending : Option Int)
    (st : JobStatus) (nx : Option Int) (rs : Reason) (v : Int)
    (hw : job.time_window_enabled = true) (ht : job.start_datetime ≤ t)
    (heq : calculate_job_state job t pending = (st, nx, rs))
    (hst : st = .active ∨ st = .sleeping) (hnx : nx = some v) :
    is_time_in_window (timeOf v) (parse_time_string job.time_window_start)
      (parse_time_string job.time_window_end) = true := by
  subst hnx
  cases pending with
  | none => exact calc_none_next_in_window job t st rs v hw ht heq
  | some p =>
    by_cases hgr : t - job.interval_seconds * 2 < p
    · by_cases hboth :
        (is_time_in_window (timeOf t) (parse_time_string job.time_window_start)
            (parse_time_string job.time_window_end) &&
          is_time_in_window (timeOf p) (parse_time_string job.time_window_start)
            (parse_time_string job.time_window_end)) = true
      · by_cases hd : (job.status == some "disabled") = true
        · simp only [calculate_job_state, hd, if_true, Prod.mk.injEq] at heq
          exact absurd heq.2.1.symm (by simp)
        · simp only [calculate_job_state, hd, Bool.false_eq_true, if_false,
            if_neg (not_lt.mpr ht), hw, if_true, if_pos hgr, hboth,
            Prod.mk.injEq] at heq
          obtain rfl : p = v := by simpa using heq.2.1
          exact (Bool.and_eq_true _ _ |>.mp hboth).2
      · rw [calc_pending_fallthrough job t p
          (Or.inr ⟨hw, Bool.eq_false_iff.mpr hboth⟩)] at heq
        exact calc_none_next_in_window job t st rs v hw ht heq
    · rw [calc_pending_fallthrough job t p (Or.inl hgr)] at heq
      exact calc_none_next_in_window job t st rs v hw ht heq

/-- Witness for C6 (amended) at scenario S3's in-window tick: the slot
93600 (02:00:00Z) returned at 93000 lies inside the 22:00–02:00
window. -/
theorem claim_C6_next_in_window_witness :
    s3_job.time_window_enabled = true ∧ s3_job.start_datetime ≤ 93000 ∧
    is_time_in_window (timeOf 93600) (parse_time_string s3_job.time_window_start)
      (parse_time_string s3_job.time_window_end) = true :=
  ⟨by decide, by decide,
    claim_C6_next_in_window s3_job 93000 none .active (some 93600)
      (.activeNext 93600) 93600 (by decide) (by decide) (by decide)
      (Or.inl rfl) rfl⟩

/-! ## Claim C7: terminal absorption -/


/-- Claim C7 fails as stated: the calculator short-circuits only on
status `disabled`; for a job whose status field is `completed`, a
pending capture inside the grace period (150 > 200 − 120) makes it
return `(active, 150)` instead of `(completed, null)`. -/
theorem claim_C7_counterexample :
    c7_job.status = some "completed" ∧
    calculate_job_state c7_job 200 (some 150) =
      (.active, some 150, .pendingCaptureAt 150) := by
  decide

/-- Claim C7 (amended): a job whose status field is `disabled` is
absorbed — every call, at any reference time and with any pending value,
returns `(disabled, null)`. The calculator never reads a `completed`
status; for a completed job, absorption holds when the pending slot is
null and the reference time has reached a set `end_datetime`, in which
case `(completed, null)` is returned. -/
theorem claim_C7_terminal_absorption :
    (∀ (job : Job) (t : Int) (p : Option Int), job.status = some "disabled" →
      calculate_job_state job t p = (.disabled, none, .manuallyDisabled)) ∧
    (∀ (job : Job) (t end_dt : Int), job.status ≠ some "disabled" →
      job.end_datetime = some end_dt → 0 < job.interval_seconds →
      job.start_datetime ≤ t → end_dt ≤ t →
      calculate_job_state job t none = (.completed, none, .noMoreCaptures)) := by
  constructor
  · intro job t p h
    simp [calculate_job_state, h]
  · intro job t end_dt hs he hi ht hte
    have hsb : (job.status == some "disabled") = false := by simpa using hs
    have hlt : end_dt < nextGridSlot job t :=
      lt_of_le_of_lt hte (nextGridSlot_gt job t hi ht)
    simp only [calculate_job_state, hsb, Bool.false_eq_true, if_false,
      if_neg (not_lt.mpr ht), calculate_next_capture_on_grid_eq job t hi ht]
    rw [he]
    simp [hlt]

/-- Witness for C7 (amended): a disabled job at an arbitrary tick with a
stale pending, and the completed job of the counterexample once its
pending is null. -/
theorem claim_C7_terminal_absorption_witness :
    calculate_job_state ⟨some "disabled", 0, none, 60, false, (0, 0), (0, 0)⟩
        500 (some 100) = (.disabled, none, .manuallyDisabled) ∧
    calculate_job_state c7_job 200 none = (.completed, none, .noMoreCaptures) :=
  ⟨claim_C7_terminal_absorption.1 _ 500 (some 100) rfl,
    claim_C7_terminal_absorption.2 c7_job 200 100 (by decide) rfl (by decide)
      (by decide) (by decide)⟩

/-! ## Claim C8: the calculator is a pure function -/

/-- Claim C8: `calculate_job_state` is a pure function of
`(job, ref_time, pending)`: the source reads only its arguments and
performs no I/O or mutation, so its embedding is a Lean function and two
calls on identical inputs — in particular two ticks inside the grace
window with the same `(job, pending)` — yield identical
`(status, next, reason)` triples. -/
theorem claim_C8_pure_function :
    ∀ (job : Job) (t : Int) (p : Option Int),
      calculate_job_state job t p = calculate_job_state job t p :=
  fun _ _ _ => rfl

/-! ## Claim C10: dispatch validation ignores the current time -/

/-- Claim C10: `should_execute_capture` never reads `current_time` — any
two current times give the same `(accept, reason)` pair — and it accepts
exactly when the scheduled time is at or after `start_datetime`, at or
before a set `end_datetime`, and (for window-enabled jobs) has its
hour:minute inside the window; no lateness bound is enforced. -/
theorem claim_C10_dispatch_ignores_now :
    (∀ (job : Job) (s c c' : Int),
      should_execute_capture job s c = should_execute_capture job s c') ∧
    (∀ (job : Job) (s c : Int),
      (should_execute_capture job s c).1 = true ↔
        (job.start_datetime ≤ s ∧
          (∀ end_dt, job.end_datetime = some end_dt → s ≤ end_dt) ∧
          (job.time_window_enabled = true →
            is_time_in_window (timeOf s) (parse_time_string job.time_window_start)
              (parse_time_string job.time_window_end) = true))) := by
  constructor
  · intro job s c c'
    rfl
  · intro job s c
    unfold should_execute_capture
    by_cases h1 : s < job.start_datetime
    · simp [h1, not_le.mpr h1]
    · have h1' : job.start_datetime ≤ s := not_lt.mp h1
      cases he : job.end_datetime with
      | none =>
        by_cases h3 : job.time_window_enabled = true
        · by_cases h4 : is_time_in_window (timeOf s)
              (parse_time_string job.time_window_start)
              (parse_time_string job.time_window_end) = true
          · simp [h1, he, h3, h4, h1']
          · simp [h1, he, h3, Bool.eq_false_iff.mpr h4, h1']
        · simp [h1, he, h3, h1']
      | some end_dt =>
        by_cases h2 : end_dt < s
        · simp [h1, he, h2, not_le.mpr h2]
        · have h2' : s ≤ end_dt := not_lt.mp h2
          by_cases h3 : job.time_window_enabled = true
          · by_cases h4 : is_time_in_window (timeOf s)
                (parse_time_string job.time_window_start)
                (parse_time_string job.time_window_end) = true
            · simp [h1, he, h2, h3, h4, h1', h2']
            · simp [h1, he, h2, h3, Bool.eq_false_iff.mpr h4, h1', h2']
          · simp [h1, he, h2, h3, h1', h2']

/-! ## Claim C9: the three-strike warning -/


/-- Claim C9: three consecutive failures from a clean counter produce
exactly one warning write, whose text contains
"after 3 consecutive failures"; a failure below the threshold explicitly
nulls the warning; a warning is only ever set when the new count is ≥ 3;
and a success clears `warning_message` in the same transaction that
inserts the capture row and increments `capture_count`. -/
theorem claim_C9_three_strike_warning :
    (∀ e1 e2 e3 : String,
      runCaptures 0 [.failure e1, .failure e2, .failure e3] =
        (3, [[.clearWarningMessage], [.clearWarningMessage],
          [.setWarningMessage (renderWarning e3 3)]])) ∧
    (∀ e : String, ∃ pre post, (renderWarning e 3).data =
      pre ++ ("after 3 consecutive failures").data ++ post) ∧
    (∀ (fc : Nat) (e : String), fc + 1 < 3 →
      captureAndUpdate fc (.failure e) = (fc + 1, [[.clearWarningMessage]])) ∧
    (∀ (fc : Nat) (e : String), 3 ≤ fc + 1 →
      captureAndUpdate fc (.failure e) =
        (fc + 1, [[.setWarningMessage (renderWarning e (fc + 1))]])) ∧
    (∀ (fc : Nat) (res : CaptureResult) (txn : List Stmt) (st : Stmt),
      txn ∈ (captureAndUpdate fc res).2 → st ∈ txn →
      Stmt.setsWarning st = true → 3 ≤ (captureAndUpdate fc res).1) ∧
    (∀ fc : Nat,
      captureAndUpdate fc .success = (0, [[.insertCapture, .updateJobOnSuccess]]) ∧
      Stmt.clearsWarning .updateJobOnSuccess = true ∧
      Stmt.incrementsCaptureCount .updateJobOnSuccess = true) := by
  refine ⟨?_, ?_, ?_, ?_, ?_, ?_⟩
  · intro e1 e2 e3
    simp [runCaptures, captureAndUpdate]
  · intro e
    refine ⟨e.data ++ (" (".data), ")".data, ?_⟩
    simp only [renderWarning, String.data_append, List.append_assoc]
    congr 1
  · intro fc e h
    rw [captureAndUpdate, if_neg (by omega)]
  · intro fc e h
    rw [captureAndUpdate, if_pos (by omega)]
  · intro fc res txn st htxn hst hset
    cases res with
    | success =>
      simp only [captureAndUpdate, capture_image_txns, List.mem_singleton] at htxn
      subst htxn
      rcases List.mem_pair.mp hst with rfl | rfl <;> simp [Stmt.setsWarning] at hset
    | failure e =>
      by_cases h3 : fc + 1 ≥ 3
      · simp only [captureAndUpdate]
        rw [if_pos h3]
        exact h3
      · simp only [captureAndUpdate, if_neg h3, List.mem_singleton] at htxn
        subst htxn
        rcases List.mem_singleton.mp hst with rfl
        simp [Stmt.setsWarning] at hset
  · intro fc
    exact ⟨rfl, rfl, rfl⟩

/-- Witness for C9: a concrete three-failure run for error "timeout",
the below-threshold null write at count 1, the threshold write at count
2→3, and the success transaction. -/
theorem claim_C9_three_strike_warning_witness :
    runCaptures 0 [.failure "timeout", .failure "timeout", .failure "timeout"] =
      (3, [[.clearWarningMessage], [.clearWarningMessage],
        [.setWarningMessage (renderWarning "timeout" 3)]]) ∧
    (1 : Nat) + 1 < 3 ∧
    captureAndUpdate 1 (.failure "timeout") = (2, [[.clearWarningMessage]]) ∧
    (3 : Nat) ≤ 2 + 1 ∧
    captureAndUpdate 2 (.failure "timeout") =
      (3, [[.setWarningMessage (renderWarning "timeout" 3)]]) ∧
    captureAndUpdate 0 .success = (0, [[.insertCapture, .updateJobOnSuccess]]) :=
  ⟨claim_C9_three_strike_warning.1 "timeout" "timeout" "timeout", by decide,
    claim_C9_three_strike_warning.2.2.1 1 "timeout" (by decide), by decide,
    claim_C9_three_strike_warning.2.2.2.1 2 "timeout" (by decide),
    (claim_C9_three_strike_warning.2.2.2.2.2 0).1⟩
